import Mathlib

/-!
Shallow embedding of the ppcu-entry edge client (`src/client.py`).

The client captures webcam frames, reads a card id (or a debug keypress in
virtual mode), dispatches each frame together with the authorized identity to
a recognition server over a ZMQ PAIR socket, and acts on the statistics the
server sends back (bounding boxes, candidate tally, a gate-open flag, a
recognized identity).  The embedding models:

* the argparse configuration surface and its defaults;
* the eight server-updated session globals and `initializeClient`;
* the wire messages of `send` and `recv`, including a partial message whose
  field-by-field application mirrors the sequence of dictionary lookups in
  `recv` (a missing key raises before the later assignments run);
* the asynchronous receive loop `asyncRecvLoop` with its timeout counter;
* one iteration of the `__main__` capture loop (`captureTick`) and the loop
  itself (`captureLoop`), with card/keypress authorization, fire-and-forget
  frame dispatch, the OPEN_GATE actuation branch and the display branch.

Machine images and dlib rectangles are opaque tokens (`Nat`).
-/

namespace PpcuEntry

/-- An opaque captured camera frame (the content never matters to the client
logic, only its identity). -/
abbrev Image := Nat

/-- An opaque dlib rectangle token. -/
abbrev Rect := Nat

/-- The argparse surface of `client.py` (the path arguments are omitted:
they only locate model weights and never reach the session logic). -/
structure Args where
  consecutive : Int
  k : Int
  threshold : Int
  card_cooldown : Int
  virtual : Bool
  display : Bool
  fullscreen : Bool
  cam : Int
deriving DecidableEq, Repr

/-- The defaults of the argparse declarations (`client.py` lines 83-95). -/
def defaultArgs : Args :=
  { consecutive := 30
    k := 100
    threshold := 50
    card_cooldown := 3
    virtual := false
    display := false
    fullscreen := false
    cam := 0 }

/-- The module-level session globals of `client.py`.  The eight fields from
`id_counter` on are the ones a successful `recv` overwrites; `None` in Python
becomes `none` here. -/
structure GlobalState where
  IS_CLIENT_RUNNING : Bool
  it : Nat
  idle_begin : Int
  id_counter : Option (List (String × Int))
  BOUNDING_BOXES : Option (List Rect)
  MAIN_BBOX : Option Rect
  CARD2NAME : List (String × String)
  OPEN_GATE : Bool
  AUTHORIZED_ID : Option String
  RECOGNIZED_ID : Option String
  consecutive_occurrence : Int
deriving DecidableEq, Repr

/-- The socket receive timeout set by `initializeClient`
(`client_socket.RCVTIMEO = 1000`, in milliseconds). -/
def RCVTIMEO : Nat := 1000

/-- The state `initializeClient` leaves behind (lines 126-154): the client is
running, the iteration counter is zero, `idle_begin` is `-1`, and the eight
server-updated globals hold their neutral initial values. -/
def initialState : GlobalState :=
  { IS_CLIENT_RUNNING := true
    it := 0
    idle_begin := -1
    id_counter := none
    BOUNDING_BOXES := none
    MAIN_BBOX := none
    CARD2NAME := []
    OPEN_GATE := false
    AUTHORIZED_ID := none
    RECOGNIZED_ID := none
    consecutive_occurrence := 0 }

/-- The edge-to-server payload built by `send`: the pickled dictionary has
exactly the two keys `bgrImg` and `AUTHORIZED_ID`. -/
structure ClientMsg where
  bgrImg : Image
  AUTHORIZED_ID : Option String
deriving DecidableEq, Repr

/-- A complete server-to-edge statistics message: the eight keys `recv`
looks up in the decoded JSON object. -/
structure ServerMsg where
  id_counter : List (String × Int)
  BOUNDING_BOXES : List Rect
  MAIN_BBOX : Option Rect
  CARD2NAME : List (String × String)
  OPEN_GATE : Bool
  AUTHORIZED_ID : Option String
  RECOGNIZED_ID : Option String
  consecutive_occurrence : Int
deriving DecidableEq, Repr

/-- Applying a complete statistics message: `recv` assigns all eight
globals from the message (lines 209-216). -/
def applyMessage (s : GlobalState) (m : ServerMsg) : GlobalState :=
  { s with
    id_counter := some m.id_counter
    BOUNDING_BOXES := some m.BOUNDING_BOXES
    MAIN_BBOX := m.MAIN_BBOX
    CARD2NAME := m.CARD2NAME
    OPEN_GATE := m.OPEN_GATE
    AUTHORIZED_ID := m.AUTHORIZED_ID
    RECOGNIZED_ID := m.RECOGNIZED_ID
    consecutive_occurrence := m.consecutive_occurrence }

/-- A possibly incomplete statistics message: `none` in a field means the
decoded JSON object is missing that key, so the corresponding dictionary
lookup in `recv` raises `KeyError`. -/
structure PartialMsg where
  id_counter : Option (List (String × Int))
  BOUNDING_BOXES : Option (List Rect)
  MAIN_BBOX : Option (Option Rect)
  CARD2NAME : Option (List (String × String))
  OPEN_GATE : Option Bool
  AUTHORIZED_ID : Option (Option String)
  RECOGNIZED_ID : Option (Option String)
  consecutive_occurrence : Option Int
deriving DecidableEq, Repr

/-- The body of `recv` on a possibly incomplete message.  The eight
assignments run in source order; the first missing key raises, so the
assignments before it have already taken effect and the ones after it never
run.  Returns the resulting globals and whether all eight lookups succeeded
(`KeyError` is not a `RuntimeError`, so the `except` clause of `recv` does
not catch it). -/
def recvApply (s : GlobalState) (m : PartialMsg) : GlobalState × Bool :=
  match m.id_counter with
  | none => (s, false)
  | some v1 =>
  let s := { s with id_counter := some v1 }
  match m.BOUNDING_BOXES with
  | none => (s, false)
  | some v2 =>
  let s := { s with BOUNDING_BOXES := some v2 }
  match m.MAIN_BBOX with
  | none => (s, false)
  | some v3 =>
  let s := { s with MAIN_BBOX := v3 }
  match m.CARD2NAME with
  | none => (s, false)
  | some v4 =>
  let s := { s with CARD2NAME := v4 }
  match m.OPEN_GATE with
  | none => (s, false)
  | some v5 =>
  let s := { s with OPEN_GATE := v5 }
  match m.AUTHORIZED_ID with
  | none => (s, false)
  | some v6 =>
  let s := { s with AUTHORIZED_ID := v6 }
  match m.RECOGNIZED_ID with
  | none => (s, false)
  | some v7 =>
  let s := { s with RECOGNIZED_ID := v7 }
  match m.consecutive_occurrence with
  | none => (s, false)
  | some v8 => ({ s with consecutive_occurrence := v8 }, true)

/-- One observed outcome of a `recv` call inside `asyncRecvLoop`:
a `zmq.Again` timeout, a successful receive of a statistics message,
a `RuntimeError` (logged and swallowed), or a `KeyboardInterrupt`. -/
inductive RecvEvent where
  | timeout : RecvEvent
  | success : ServerMsg → RecvEvent
  | runtimeError : RecvEvent
  | interrupt : RecvEvent
deriving DecidableEq, Repr

/-- Whether the event is a `KeyboardInterrupt`. -/
def RecvEvent.isInterrupt : RecvEvent → Bool
  | .interrupt => true
  | _ => false

/-- `max_timeout = 100` at the top of `asyncRecvLoop`. -/
def max_timeout : Nat := 100

/-- What a run of `asyncRecvLoop` leaves behind: the final value of
`current_timeout`, the value of `IS_CLIENT_RUNNING` as the loop exits, and
the statistics messages it successfully received (in reverse order of
arrival; only emptiness matters below). -/
structure RecvLoopResult where
  count : Nat
  running : Bool
  processed : List ServerMsg
deriving DecidableEq, Repr

/-- `asyncRecvLoop` (lines 227-244) over a sequence of observed receive
outcomes.  The loop keeps iterating while `IS_CLIENT_RUNNING` holds and
`current_timeout < max_timeout`; a timeout increments the counter, a
successful receive applies the message, a `RuntimeError` is only logged and
a `KeyboardInterrupt` breaks out.  The loop body contains no assignment to
`IS_CLIENT_RUNNING`, which is why the result carries `running` through
unchanged. -/
def asyncRecvLoopRun (running : Bool) : Nat → List RecvEvent → RecvLoopResult
  | c, [] => ⟨c, running, []⟩
  | c, e :: es =>
    if running ∧ c < max_timeout then
      match e with
      | .timeout => asyncRecvLoopRun running (c + 1) es
      | .success m =>
        let r := asyncRecvLoopRun running c es
        ⟨r.count, r.running, m :: r.processed⟩
      | .runtimeError => asyncRecvLoopRun running c es
      | .interrupt => ⟨c, running, []⟩
    else ⟨c, running, []⟩

/-- The number of timeout events in a sequence. -/
def countTimeouts : List RecvEvent → Nat
  | [] => 0
  | .timeout :: es => countTimeouts es + 1
  | _ :: es => countTimeouts es

/-- The outcome of the send socket call inside `send`, run on its own
thread: either it succeeds or it raises a `RuntimeError`, which the `except`
clause catches and logs. -/
inductive SendOutcome where
  | ok : SendOutcome
  | runtimeError : String → SendOutcome
deriving DecidableEq, Repr

/-- What a call of `send` produces: the payload it serialized, whether an
exception escaped the function, and what it printed. -/
structure SendResult where
  payload : ClientMsg
  raised : Bool
  log : List String
deriving DecidableEq, Repr

/-- `send` (lines 158-179): build the two-key payload, attempt the socket
send, catch and log a `RuntimeError`, and in either case fall through to the
final status print.  The failing frame is simply dropped: there is no retry
and no second attempt appears in the result. -/
def send (bgrImg : Image) (authorizedId : Option String) (o : SendOutcome) :
    SendResult :=
  let payload : ClientMsg := ⟨bgrImg, authorizedId⟩
  match o with
  | .ok => ⟨payload, false, ["Send image and ID"]⟩
  | .runtimeError e =>
      ⟨payload, false, ["CLIENT <send> ERROR: " ++ e, "Send image and ID"]⟩

/-- The exceptions that can escape one capture-loop iteration: the explicit
`RuntimeError` when `cap.read` fails, and the `KeyError` raised by
`CARD2NAME[RECOGNIZED_ID]` in the OPEN_GATE branch.  Neither is caught by
the loop's single `except KeyboardInterrupt` clause. -/
inductive TickError where
  | captureFailure : TickError
  | keyError : TickError
deriving DecidableEq, Repr

/-- How one capture-loop iteration ends: fall through to the next iteration,
a `break` out of the loop from the display branch (the `q` key), a caught
`KeyboardInterrupt`, or an uncaught exception that unwinds the loop. -/
inductive TickOutcome where
  | next : TickOutcome
  | quit : TickOutcome
  | interrupted : TickOutcome
  | crash : TickError → TickOutcome
deriving DecidableEq, Repr

/-- The external inputs one capture iteration consumes: whether a
`KeyboardInterrupt` arrives during the iteration, the camera read result
(`none` when `ret` is false), the card reader tuple, the `cv2.waitKey`
result of the virtual-authorization branch, whether the display branch sees
the `q` key, the wall clock, and the outcome of the fire-and-forget send
thread spawned this iteration. -/
structure TickInput where
  interrupt : Bool
  frame : Option Image
  cardData : List String
  pressedKey : Option Nat
  quitKey : Bool
  now : Int
  sendOutcome : SendOutcome
deriving DecidableEq, Repr

/-- What one capture iteration produces: the globals it leaves behind, how
it ended, the frame-and-identity payload it dispatched (if the iteration got
that far), the identity passed to `pirate.emulateCardID` (if any), and the
OPEN log line (if any). -/
structure TickResult where
  state : GlobalState
  outcome : TickOutcome
  dispatched : Option (Image × Option String)
  actuated : Option String
  log : List String
deriving DecidableEq, Repr

/-- `chr(pressedKeyCode & 255)`: the debug identity derived from a keypress
in virtual mode. -/
def keyChar (code : Nat) : String := String.mk [Char.ofNat (code % 256)]

/-- `CARD2NAME[RECOGNIZED_ID]`: a dictionary lookup whose key may be the
Python `None`, which is never a key of the card-to-name map; `none` as the
result stands for the `KeyError`. -/
def lookupName (m : List (String × String)) : Option String → Option String
  | none => none
  | some cardId => m.lookup cardId

/-- Lines 275-284, as a function of the old `AUTHORIZED_ID` alone: while it
is `None`, virtual mode takes a keypress as the identity, and otherwise a
complete four-field card tuple supplies `CardData[0]`.  A non-null value
short-circuits the whole block and is kept. -/
def authUpdateId (a : Args) (inp : TickInput) :
    Option String → Option String
  | some x => some x
  | none =>
    if a.virtual then
      match inp.pressedKey with
      | some code => some (keyChar code)
      | none => none
    else if inp.cardData.length = 4 then inp.cardData.head?
    else none

/-- The card/keypress authorization block: only `AUTHORIZED_ID` can change,
every other global is untouched. -/
def authUpdate (a : Args) (inp : TickInput) (s : GlobalState) : GlobalState :=
  { s with AUTHORIZED_ID := authUpdateId a inp s.AUTHORIZED_ID }

/-- Lines 308-345: the idle bookkeeping when no main bounding box is known
(`idle_begin` starts counting) or a known box clears it to `-1`, and the
display branch, whose `q` key breaks out of the loop (only reachable when
`--display` is set).  The dispatched payload, the actuation and the log are
threaded through unchanged. -/
def displayPhase (a : Args) (inp : TickInput) (s : GlobalState)
    (dispatched : Option (Image × Option String)) (actuated : Option String)
    (lg : List String) : TickResult :=
  let s2 :=
    if s.MAIN_BBOX = none then
      if s.idle_begin < 0 then { s with idle_begin := inp.now } else s
    else { s with idle_begin := -1 }
  let out := if a.display ∧ inp.quitKey then TickOutcome.quit
             else TickOutcome.next
  ⟨s2, out, dispatched, actuated, lg⟩

/-- One iteration of the `__main__` capture loop (lines 258-351): increment
`it`; a `KeyboardInterrupt` is caught by the loop's handler and clears
`IS_CLIENT_RUNNING`; a failed camera read raises out of the loop; otherwise
run the card/keypress authorization block, dispatch the frame and the
current `AUTHORIZED_ID` on a fire-and-forget thread, and if `OPEN_GATE`
holds look the recognized identity up in `CARD2NAME` (raising `KeyError`
when absent) and actuate the gate unless in virtual mode; finally the
idle/display bookkeeping. -/
def captureTick (a : Args) (s0 : GlobalState) (inp : TickInput) : TickResult :=
  let s := { s0 with it := s0.it + 1 }
  if inp.interrupt then
    ⟨{ s with IS_CLIENT_RUNNING := false }, .interrupted, none, none,
      ["Interrupted manually"]⟩
  else
    match inp.frame with
    | none => ⟨s, .crash .captureFailure, none, none, []⟩
    | some img =>
      let s := authUpdate a inp s
      let dispatched := some (img, s.AUTHORIZED_ID)
      if s.OPEN_GATE then
        match lookupName s.CARD2NAME s.RECOGNIZED_ID with
        | none => ⟨s, .crash .keyError, dispatched, none, []⟩
        | some nm =>
          let lg := ["OPEN: " ++ nm]
          let actuated : Option String :=
            if a.virtual then none else s.RECOGNIZED_ID
          displayPhase a inp s dispatched actuated lg
      else displayPhase a inp s dispatched none []

/-- The `while IS_CLIENT_RUNNING` capture loop over a sequence of per-tick
inputs.  A tick ending in `next` continues; a caught interrupt cleared the
running flag, so the next condition check exits; `quit` and an uncaught
exception leave the loop at once.  Returns the final globals and every
dispatched payload, in order. -/
def captureLoop (a : Args) :
    GlobalState → List TickInput → GlobalState × List (Image × Option String)
  | s, [] => (s, [])
  | s, inp :: rest =>
    if s.IS_CLIENT_RUNNING then
      let r := captureTick a s inp
      match r.outcome with
      | .next =>
        let (s2, ds) := captureLoop a r.state rest
        (s2, r.dispatched.toList ++ ds)
      | .interrupted =>
        let (s2, ds) := captureLoop a r.state rest
        (s2, r.dispatched.toList ++ ds)
      | .quit => (r.state, r.dispatched.toList)
      | .crash _ => (r.state, r.dispatched.toList)
    else (s, [])

/-! ### Concrete fixtures used by counterexamples and witnesses -/

/-- An empty statistics message. -/
def msg0 : ServerMsg := ⟨[], [], none, [], false, none, none, 0⟩

/-- An uneventful tick: a good camera read, no card, no keypress, no
interrupt. -/
def goodTick : TickInput := ⟨false, some 7, [], none, false, 0, SendOutcome.ok⟩

/-- A state in which the server has ordered the gate open for identity `A`,
whose display name is known. -/
def sOpen : GlobalState :=
  { initialState with
    MAIN_BBOX := some 1
    CARD2NAME := [("A", "Alice")]
    OPEN_GATE := true
    AUTHORIZED_ID := some "A"
    RECOGNIZED_ID := some "A" }

/-- A state in which the server has ordered the gate open for identity `X`,
which is missing from the card-to-name map. -/
def sGateBad : GlobalState :=
  { initialState with
    MAIN_BBOX := some 1
    OPEN_GATE := true
    RECOGNIZED_ID := some "X" }

/-- A statistics message whose first four keys are present and whose
`OPEN_GATE` key is missing. -/
def msgMissingGate : PartialMsg :=
  ⟨some [("A", 3)], some [5], some (some 5), some [("A", "Alice")],
    none, none, none, none⟩

/-! ### Helper lemmas -/

/-- The receive loop contains no assignment to `IS_CLIENT_RUNNING`: the flag
it exits with is the flag it entered with. -/
theorem asyncRecvLoopRun_running (b : Bool) (c : Nat) (es : List RecvEvent) :
    (asyncRecvLoopRun b c es).running = b := by
  induction es generalizing c with
  | nil => rfl
  | cons e es ih =>
    unfold asyncRecvLoopRun
    split
    · cases e
      · exact ih (c + 1)
      · simpa using ih c
      · exact ih c
      · rfl
    · rfl

/-- Once the timeout counter has reached `max_timeout`, the loop consumes no
further events. -/
theorem asyncRecvLoopRun_saturated (es : List RecvEvent) :
    asyncRecvLoopRun true max_timeout es = ⟨max_timeout, true, []⟩ := by
  cases es with
  | nil => rfl
  | cons e es => simp [asyncRecvLoopRun, max_timeout]

/-- Feeding `n` timeouts to a counter standing at `c` with `c + n`
reaching the bound drives the counter to the bound and discards whatever
events follow. -/
theorem asyncRecvLoopRun_replicate_timeout (n : Nat) :
    ∀ (c : Nat) (es : List RecvEvent), c + n = max_timeout →
      asyncRecvLoopRun true c (List.replicate n RecvEvent.timeout ++ es) =
        ⟨max_timeout, true, []⟩ := by
  induction n with
  | zero =>
    intro c es h
    simp only [Nat.add_zero] at h
    subst h
    simpa using asyncRecvLoopRun_saturated es
  | succ n ih =>
    intro c es h
    have hc : c < max_timeout := by omega
    simp only [List.replicate_succ, List.cons_append, asyncRecvLoopRun,
      hc, and_self, if_pos, true_and]
    exact ih (c + 1) es (by omega)

/-! ### Claim theorems -/

/-- C8: the configuration defaults of the client are: required consecutive
frames 30, top-K 100, confidence threshold 50 percent, cooldown 3 seconds,
receive timeout 1000 milliseconds, and maximum consecutive timeouts 100. -/
theorem configuration_defaults :
    defaultArgs.consecutive = 30 ∧ defaultArgs.k = 100 ∧
    defaultArgs.threshold = 50 ∧ defaultArgs.card_cooldown = 3 ∧
    RCVTIMEO = 1000 ∧ max_timeout = 100 :=
  ⟨rfl, rfl, rfl, rfl, rfl, rfl⟩

/-- C3 counterexample: the claim says a successful receive resets the
timeout counter to zero; in the code the counter is simply left alone, so
after one timeout followed by one successful receive it stands at 1, not
0. -/
theorem timeout_counter_not_reset_cx :
    (asyncRecvLoopRun true 0
      [RecvEvent.timeout, RecvEvent.success msg0]).count = 1 ∧
    ¬ (asyncRecvLoopRun true 0
      [RecvEvent.timeout, RecvEvent.success msg0]).count = 0 := by
  decide

/-- C3 amended: the timeout counter of `asyncRecvLoop` is cumulative, never
reset: over any interrupt-free sequence of receive outcomes the final
counter is the total number of timeouts seen, capped at `max_timeout`; the
loop therefore gives up after 100 timeouts in total, whether or not
successful receives are interleaved. -/
theorem timeout_counter_cumulative (c : Nat) (es : List RecvEvent)
    (hni : es.all (fun e => !e.isInterrupt) = true) (hc : c ≤ max_timeout) :
    (asyncRecvLoopRun true c es).count =
      min max_timeout (c + countTimeouts es) := by
  induction es generalizing c with
  | nil =>
    simp [asyncRecvLoopRun, countTimeouts, Nat.min_eq_right hc]
  | cons e es ih =>
    simp only [List.all_cons, Bool.and_eq_true] at hni
    by_cases hlt : c < max_timeout
    · cases e with
      | timeout =>
        simp only [asyncRecvLoopRun, hlt, and_self, if_pos, true_and]
        rw [ih (c + 1) hni.2 (by omega)]
        simp only [countTimeouts]
        omega
      | success m =>
        simp only [asyncRecvLoopRun, hlt, and_self, if_pos, true_and]
        rw [show (countTimeouts (RecvEvent.success m :: es)) =
          countTimeouts es from rfl]
        exact ih c hni.2 hc
      | runtimeError =>
        simp only [asyncRecvLoopRun, hlt, and_self, if_pos, true_and]
        rw [show (countTimeouts (RecvEvent.runtimeError :: es)) =
          countTimeouts es from rfl]
        exact ih c hni.2 hc
      | interrupt => simp [RecvEvent.isInterrupt] at hni
    · have hceq : c = max_timeout := by omega
      subst hceq
      rw [asyncRecvLoopRun_saturated]
      simp

/-- C3 witness: the cumulative-counter theorem evaluated on the concrete
sequence timeout, success, timeout: the counter ends at 2. -/
theorem timeout_counter_cumulative_witness :
    (asyncRecvLoopRun true 0
      [RecvEvent.timeout, RecvEvent.success msg0, RecvEvent.timeout]).count =
      min max_timeout (0 + countTimeouts
        [RecvEvent.timeout, RecvEvent.success msg0, RecvEvent.timeout]) :=
  timeout_counter_cumulative 0
    [RecvEvent.timeout, RecvEvent.success msg0, RecvEvent.timeout]
    (by decide) (by decide)

/-- C1 counterexample: a run of 150 straight timeouts exhausts the receive
loop (the counter stops at 100), yet `IS_CLIENT_RUNNING` is still true as
the loop exits, and a subsequent capture iteration still runs: it captures
and dispatches a frame and leaves the session running. -/
theorem timeout_exhaustion_session_continues_cx :
    (asyncRecvLoopRun true 0 (List.replicate 150 RecvEvent.timeout)).count =
      max_timeout ∧
    (asyncRecvLoopRun true 0 (List.replicate 150 RecvEvent.timeout)).running =
      true ∧
    (captureLoop defaultArgs initialState [goodTick]).2 = [(7, none)] ∧
    (captureLoop defaultArgs initialState [goodTick]).1.IS_CLIENT_RUNNING =
      true := by
  decide

/-- C1 amended: after the 100th timeout only the receive loop terminates:
it processes no further messages, but it never touches `IS_CLIENT_RUNNING`,
so the capture loop's condition still holds and frames continue to be
captured and dispatched. -/
theorem recv_loop_exit_preserves_running (b : Bool) (c : Nat)
    (es : List RecvEvent) :
    (asyncRecvLoopRun b c es).running = b ∧
    (asyncRecvLoopRun true 0
      (List.replicate max_timeout RecvEvent.timeout ++ es)).processed = [] := by
  refine ⟨asyncRecvLoopRun_running b c es, ?_⟩
  rw [asyncRecvLoopRun_replicate_timeout max_timeout 0 es (by omega)]

/-- The idle/display phase ends an iteration only with fall-through or the
`q`-key break, never with an exception. -/
theorem displayPhase_outcome (a : Args) (inp : TickInput) (s : GlobalState)
    (d : Option (Image × Option String)) (act : Option String)
    (lg : List String) :
    (displayPhase a inp s d act lg).outcome = TickOutcome.next ∨
    (displayPhase a inp s d act lg).outcome = TickOutcome.quit := by
  unfold displayPhase
  by_cases h : a.display = true ∧ inp.quitKey = true <;> simp [h]

/-- The idle/display phase never raises: its outcome is not a crash. -/
theorem displayPhase_outcome_ne_crash (a : Args) (inp : TickInput)
    (s : GlobalState) (d : Option (Image × Option String))
    (act : Option String) (lg : List String) (e : TickError) :
    ¬ (displayPhase a inp s d act lg).outcome = TickOutcome.crash e := by
  rcases displayPhase_outcome a inp s d act lg with h | h <;> simp [h]

/-- The idle/display phase only touches `idle_begin`: the authorized
identity survives it. -/
theorem displayPhase_AUTHORIZED_ID (a : Args) (inp : TickInput)
    (s : GlobalState) (d : Option (Image × Option String))
    (act : Option String) (lg : List String) :
    (displayPhase a inp s d act lg).state.AUTHORIZED_ID = s.AUTHORIZED_ID := by
  unfold displayPhase
  by_cases h1 : s.MAIN_BBOX = none <;> by_cases h2 : s.idle_begin < 0 <;>
    simp [h1, h2]

/-- C2: the client-side evidence that the cooldown is not enforced: with the
default arguments (cooldown 3 seconds) and the gate-open state standing,
two back-to-back capture iterations both actuate the gate for identity `A`,
and the tick function does not depend on the `card_cooldown` argument at
all (the parsed option is never read). -/
theorem card_cooldown_unused_double_actuation :
    (captureTick defaultArgs sOpen goodTick).actuated = some "A" ∧
    (captureTick defaultArgs
      (captureTick defaultArgs sOpen goodTick).state goodTick).actuated =
      some "A" ∧
    ∀ cd : Int,
      captureTick { defaultArgs with card_cooldown := cd } sOpen goodTick =
        captureTick defaultArgs sOpen goodTick :=
  ⟨by decide, by decide, fun _ => rfl⟩

/-- C4 counterexample: a per-tick error other than a capture failure does
terminate the session loop: with the gate ordered open for an identity
missing from the card-to-name map, the dictionary lookup raises `KeyError`,
the iteration ends in an uncaught exception, and the loop stops (two queued
iterations advance `it` only once). -/
theorem gate_branch_error_stops_loop_cx :
    (captureTick defaultArgs sGateBad goodTick).outcome =
      TickOutcome.crash TickError.keyError ∧
    (captureLoop defaultArgs sGateBad [goodTick, goodTick]).1.it =
      sGateBad.it + 1 := by
  decide

/-- C4 amended: the capture loop catches only `KeyboardInterrupt`; a tick
crashes exactly on a failed camera read or on a gate-open decision whose
recognized identity is missing from the card-to-name map, and each of these
uncaught exceptions terminates the loop, contrary to the claim that
per-tick errors leave it running. -/
theorem tick_termination_characterization (a : Args) (s : GlobalState)
    (inp : TickInput) :
    (inp.interrupt = true →
      (captureTick a s inp).outcome = TickOutcome.interrupted ∧
      (captureTick a s inp).state.IS_CLIENT_RUNNING = false) ∧
    (inp.interrupt = false →
      ((captureTick a s inp).outcome =
          TickOutcome.crash TickError.captureFailure ↔ inp.frame = none)) ∧
    (inp.interrupt = false →
      ((captureTick a s inp).outcome =
          TickOutcome.crash TickError.keyError ↔
        (inp.frame ≠ none ∧ s.OPEN_GATE = true ∧
          lookupName s.CARD2NAME s.RECOGNIZED_ID = none))) := by
  refine ⟨fun hi => ?_, fun hi => ?_, fun hi => ?_⟩
  · simp [captureTick, hi]
  · cases hf : inp.frame with
    | none => simp [captureTick, hi, hf]
    | some img =>
      simp only [captureTick, hi, Bool.false_eq_true, if_false, hf]
      cases hO : s.OPEN_GATE with
      | false => simp [authUpdate, hO, displayPhase_outcome_ne_crash, hf]
      | true =>
        cases hL : lookupName s.CARD2NAME s.RECOGNIZED_ID with
        | none => simp [authUpdate, hO, hL, hf]
        | some nm =>
          simp [authUpdate, hO, hL, displayPhase_outcome_ne_crash, hf]
  · cases hf : inp.frame with
    | none => simp [captureTick, hi, hf]
    | some img =>
      simp only [captureTick, hi, Bool.false_eq_true, if_false, hf]
      cases hO : s.OPEN_GATE with
      | false => simp [authUpdate, hO, displayPhase_outcome_ne_crash, hf]
      | true =>
        cases hL : lookupName s.CARD2NAME s.RECOGNIZED_ID with
        | none => simp [authUpdate, hO, hL, hf]
        | some nm =>
          simp [authUpdate, hO, hL, displayPhase_outcome_ne_crash, hf]

/-- C5 counterexample: a received server message does change a non-null
authorized identity: starting from `AUTHORIZED_ID = some "A"`, applying a
statistics message whose `AUTHORIZED_ID` field is null overwrites the
identity with null, with no session reset involved. -/
theorem recv_overwrites_authorized_id_cx :
    ({ initialState with AUTHORIZED_ID := some "A" } :
      GlobalState).AUTHORIZED_ID = some "A" ∧
    (applyMessage { initialState with AUTHORIZED_ID := some "A" }
      msg0).AUTHORIZED_ID = none := by
  decide

/-- C5 amended: the card/keypress path of the capture loop never changes a
non-null `AUTHORIZED_ID` (it is set at most once, while null), but every
successful server receive unconditionally overwrites `AUTHORIZED_ID` with
the received field, which may change or clear it without a session
reset. -/
theorem authorized_id_stable_until_recv (a : Args) (s : GlobalState)
    (inp : TickInput) (m : ServerMsg) :
    (s.AUTHORIZED_ID ≠ none →
      (captureTick a s inp).state.AUTHORIZED_ID = s.AUTHORIZED_ID) ∧
    (applyMessage s m).AUTHORIZED_ID = m.AUTHORIZED_ID := by
  refine ⟨fun hA => ?_, rfl⟩
  obtain ⟨x, hx⟩ := Option.ne_none_iff_exists'.mp hA
  have hauth : authUpdateId a inp s.AUTHORIZED_ID = s.AUTHORIZED_ID := by
    rw [hx]
    rfl
  by_cases hi : inp.interrupt
  · simp [captureTick, hi]
  · cases hf : inp.frame with
    | none => simp [captureTick, hi, hf]
    | some img =>
      simp only [captureTick, hi, Bool.false_eq_true, if_false, hf]
      split
      · split
        · simp [authUpdate, hauth]
        · simp [displayPhase_AUTHORIZED_ID, authUpdate, hauth]
      · simp [displayPhase_AUTHORIZED_ID, authUpdate, hauth]

/-- C6 counterexample: a receive that fails mid-application leaves the
session state partially updated: on a message missing only its `OPEN_GATE`
key, `recvApply` reports failure yet the resulting state differs from the
initial one (the candidate tally was already overwritten) while the gate
flag kept its old value. -/
theorem recv_partial_update_cx :
    (recvApply initialState msgMissingGate).2 = false ∧
    ¬ (recvApply initialState msgMissingGate).1 = initialState ∧
    (recvApply initialState msgMissingGate).1.id_counter = some [("A", 3)] ∧
    (recvApply initialState msgMissingGate).1.OPEN_GATE =
      initialState.OPEN_GATE := by
  decide

/-- C6 amended: the eight assignments of `recv` run in source order and the
first missing key aborts the rest, so a message missing the `OPEN_GATE` key
leaves the first four variables updated and the last four untouched
(whatever the later fields hold), and only a message missing its very first
key leaves the state exactly as it was. -/
theorem recv_failure_prefix_update (s : GlobalState)
    (v1 : List (String × Int)) (v2 : List Rect) (v3 : Option Rect)
    (v4 : List (String × String)) (r6 : Option (Option String))
    (r7 : Option (Option String)) (r8 : Option Int)
    (q2 : Option (List Rect)) (q3 : Option (Option Rect))
    (q4 : Option (List (String × String))) (q5 : Option Bool)
    (q6 : Option (Option String)) (q7 : Option (Option String))
    (q8 : Option Int) :
    recvApply s ⟨some v1, some v2, some v3, some v4, none, r6, r7, r8⟩ =
      ({ s with
          id_counter := some v1
          BOUNDING_BOXES := some v2
          MAIN_BBOX := v3
          CARD2NAME := v4 }, false) ∧
    recvApply s ⟨none, q2, q3, q4, q5, q6, q7, q8⟩ = (s, false) :=
  ⟨rfl, rfl⟩

/-- C7: an edge-to-server payload is determined by exactly its two fields
(the encoded frame and the nullable claimed identity, which is what `send`
serializes), a server-to-edge statistics message is determined by exactly
its eight fields, and applying a complete statistics message updates all
eight corresponding session variables to the received values. -/
theorem wire_message_shapes (s : GlobalState) (m : ServerMsg)
    (c1 c2 : ClientMsg) (m1 m2 : ServerMsg) (img : Image)
    (idd : Option String) (o : SendOutcome) :
    (c1 = c2 ↔ (c1.bgrImg = c2.bgrImg ∧ c1.AUTHORIZED_ID = c2.AUTHORIZED_ID)) ∧
    (m1 = m2 ↔ (m1.id_counter = m2.id_counter ∧
      m1.BOUNDING_BOXES = m2.BOUNDING_BOXES ∧ m1.MAIN_BBOX = m2.MAIN_BBOX ∧
      m1.CARD2NAME = m2.CARD2NAME ∧ m1.OPEN_GATE = m2.OPEN_GATE ∧
      m1.AUTHORIZED_ID = m2.AUTHORIZED_ID ∧
      m1.RECOGNIZED_ID = m2.RECOGNIZED_ID ∧
      m1.consecutive_occurrence = m2.consecutive_occurrence)) ∧
    (send img idd o).payload = ⟨img, idd⟩ ∧
    ((applyMessage s m).id_counter = some m.id_counter ∧
     (applyMessage s m).BOUNDING_BOXES = some m.BOUNDING_BOXES ∧
     (applyMessage s m).MAIN_BBOX = m.MAIN_BBOX ∧
     (applyMessage s m).CARD2NAME = m.CARD2NAME ∧
     (applyMessage s m).OPEN_GATE = m.OPEN_GATE ∧
     (applyMessage s m).AUTHORIZED_ID = m.AUTHORIZED_ID ∧
     (applyMessage s m).RECOGNIZED_ID = m.RECOGNIZED_ID ∧
     (applyMessage s m).consecutive_occurrence = m.consecutive_occurrence) := by
  refine ⟨?_, ?_, ?_, ⟨rfl, rfl, rfl, rfl, rfl, rfl, rfl, rfl⟩⟩
  · cases c1; cases c2; simp
  · cases m1; cases m2; simp [and_assoc]
  · cases o <;> rfl

/-- C9: a frame send that fails with a `RuntimeError` is caught inside
`send` (no exception escapes), the error is logged, the frame is dropped
(the single payload of the attempt is all there is), and the capture
iteration is entirely independent of the send outcome, so a failed or slow
send neither terminates the session nor delays the next capture. -/
theorem send_failure_harmless (img : Image) (idd : Option String)
    (e : String) (a : Args) (s : GlobalState) (inp : TickInput)
    (o : SendOutcome) :
    (send img idd (SendOutcome.runtimeError e)).raised = false ∧
    ("CLIENT <send> ERROR: " ++ e) ∈
      (send img idd (SendOutcome.runtimeError e)).log ∧
    (send img idd (SendOutcome.runtimeError e)).payload = ⟨img, idd⟩ ∧
    captureTick a s { inp with sendOutcome := o } = captureTick a s inp :=
  ⟨rfl, by simp [send], rfl, rfl⟩

/-- C10: in virtual (card-less debug) mode a gate-open decision never
reaches the actuator: the tick's actuation is always absent when
`--virtual` is set, an actuation can only happen with `--virtual` unset,
and in virtual mode an acted-on open decision still produces its log
line. -/
theorem virtual_mode_never_actuates (a : Args) (s : GlobalState)
    (inp : TickInput) :
    (a.virtual = true → (captureTick a s inp).actuated = none) ∧
    ((captureTick a s inp).actuated.isSome = true → a.virtual = false) ∧
    (a.virtual = true → s.OPEN_GATE = true → inp.interrupt = false →
      inp.frame.isSome = true →
      (lookupName s.CARD2NAME s.RECOGNIZED_ID).isSome = true →
      (captureTick a s inp).log ≠ []) := by
  have hact : a.virtual = true → (captureTick a s inp).actuated = none := by
    intro hv
    by_cases hi : inp.interrupt
    · simp [captureTick, hi]
    · cases hf : inp.frame with
      | none => simp [captureTick, hi, hf]
      | some img =>
        simp only [captureTick, hi, Bool.false_eq_true, if_false, hf]
        cases hO : s.OPEN_GATE with
        | false => simp [authUpdate, hO, displayPhase]
        | true =>
          cases hL : lookupName s.CARD2NAME s.RECOGNIZED_ID with
          | none => simp [authUpdate, hO, hL]
          | some nm => simp [authUpdate, hO, hL, hv, displayPhase]
  refine ⟨hact, fun hs => ?_, fun hv hO hi hf hL => ?_⟩
  · cases hv : a.virtual with
    | false => rfl
    | true => rw [hact hv] at hs; simp at hs
  · obtain ⟨img, hfe⟩ := Option.isSome_iff_exists.mp hf
    obtain ⟨nm, hLe⟩ := Option.isSome_iff_exists.mp hL
    simp [captureTick, hi, hfe, authUpdate, hO, hLe, displayPhase]

end PpcuEntry
